import Mathlib

/-!
Verification of the Walker Brain Portal query/auth/cache subsystem.

Shallow embedding of the Python source:
  * `src/components/pagination.py` — `paginated_controls`
  * `src/utils/queries.py` — predicate construction of `fetch_quotes`,
    `search_calls`, `count_calls`, including the text-search escaping
  * `src/utils/database.py` — `query_table` filter compilation, the
    memoization key of `st.cache_data`, and the TTL constants
  * `src/utils/auth.py` / `src/utils/db.py` — the sign-in and
    create-account flows over the `wb_*` auth RPCs

Machine integers do not occur (Python ints are unbounded); Python `int`
is embedded as `Int`, Python `None` as `Option.none`, Python falsiness
of strings/lists as emptiness tests.
-/

namespace WalkerBrain

/-! ## Pagination (`src/components/pagination.py`, `paginated_controls`) -/

/-- Result of one render of `paginated_controls`: the clamped page index,
the returned offset, the disabled-state of the Previous/Next buttons, and
the computed `total_pages` (`none` mirrors the Python `None`). -/
structure PageControls where
  page : Int
  offset : Int
  prevDisabled : Bool
  nextDisabled : Bool
  totalPages : Option Int
  deriving Repr, DecidableEq

/-- Integer form of `math.ceil(t / ps)` for `ps > 0`, as computed on line 19
of `pagination.py` (the guard there ensures `t > 0` and `ps ≠ 0` before this
is evaluated). -/
def ceilDiv (t ps : Int) : Int := (t + ps - 1) / ps

/-- The `paginated_controls` component from `src/components/pagination.py`:

    page = st.session_state.get(key, 0)
    total_pages = math.ceil(total_count / page_size)
                  if total_count is not None and total_count > 0 and page_size
                  else None
    if total_pages is not None:
        page = min(page, max(0, total_pages - 1))
    is_last_page = total_pages is None or page >= total_pages - 1
    ... Previous: disabled=(page == 0) ... Next: disabled=is_last_page ...
    offset = page * page_size

`page0` is the page index stored in session state before the render. -/
def paginated_controls (page0 : Int) (pageSize : Int) (totalCount : Option Int) :
    PageControls :=
  let totalPages : Option Int :=
    match totalCount with
    | some t => if t > 0 ∧ pageSize ≠ 0 then some (ceilDiv t pageSize) else none
    | none => none
  let page : Int :=
    match totalPages with
    | some tp => min page0 (max 0 (tp - 1))
    | none => page0
  let isLast : Bool :=
    match totalPages with
    | some tp => decide (page ≥ tp - 1)
    | none => true
  { page := page
    offset := page * pageSize
    prevDisabled := decide (page = 0)
    nextDisabled := isLast
    totalPages := totalPages }

/-! ## Text search escaping and ILIKE matching

`search_calls` and `count_calls` in `src/utils/queries.py` both contain

    safe = (text_search.replace("\\", "\\\\").replace("%", "\\%")
            .replace("_", "\\_").replace("(", "\\(").replace(")", "\\)")
            .replace(".", "\\.").replace(",", "\\,"))
    q = q.or_(f"summary.ilike.%{safe}%,key_quote.ilike.%{safe}%,"
              f"primary_topic.ilike.%{safe}%")

We embed the escaping character-list-wise and give an executable model of
the Postgres `ILIKE` operator that the pattern is ultimately handed to. -/

/-- Case folding used by `ILIKE` (case-insensitive comparison). -/
def lowerChar (c : Char) : Char := c.toLower

/-- Executable model of Postgres `ILIKE` pattern matching with the default
escape character: `%` matches any (possibly empty) substring, `_` matches
exactly one character, a backslash makes the following character literal,
every other pattern character matches itself; characters are compared
case-insensitively.  A pattern ending in a bare backslash matches nothing
(Postgres rejects such patterns). -/
def ilikeMatch : List Char → List Char → Bool
  | [], t => t.isEmpty
  | '%' :: p, t => t.tails.any fun t' => ilikeMatch p t'
  | '_' :: _, [] => false
  | '_' :: p, _ :: t' => ilikeMatch p t'
  | '\\' :: _ :: _, [] => false
  | '\\' :: d :: p', x :: t' => (lowerChar x = lowerChar d) && ilikeMatch p' t'
  | ['\\'], _ => false
  | _ :: _, [] => false
  | c :: p, x :: t' => (lowerChar x = lowerChar c) && ilikeMatch p t'

/-- Python single-character `str.replace(needle, repl)` on a list of
characters: every occurrence of `needle` is replaced by `repl`; the
replacement text is not rescanned. -/
def pyReplace (needle : Char) (repl : List Char) : List Char → List Char
  | [] => []
  | c :: cs => (if c = needle then repl else [c]) ++ pyReplace needle repl cs

/-- The escaping chain of `search_calls` / `count_calls`
(`src/utils/queries.py` lines 159-161 and 591-593), backslash first:

    text_search.replace("\\", "\\\\").replace("%", "\\%").replace("_", "\\_")
        .replace("(", "\\(").replace(")", "\\)").replace(".", "\\.")
        .replace(",", "\\,")                                            -/
def escapeTextSearch (s : List Char) : List Char :=
  pyReplace ',' ['\\', ','] (pyReplace '.' ['\\', '.'] (pyReplace ')' ['\\', ')']
    (pyReplace '(' ['\\', '('] (pyReplace '_' ['\\', '_'] (pyReplace '%' ['\\', '%']
      (pyReplace '\\' ['\\', '\\'] s))))))

/-- The characters the source escapes, in the order it escapes them. -/
def specialChars : List Char := ['\\', '%', '_', '(', ')', '.', ',']

/-- Character-wise description of the escaping: specials get a preceding
backslash, everything else is kept as is. -/
def escChar (c : Char) : List Char :=
  if c ∈ specialChars then ['\\', c] else [c]

/-- List-of-characters form of the pattern `f"%{safe}%"`. -/
def textSearchPattern (s : List Char) : List Char :=
  '%' :: (escapeTextSearch s ++ ['%'])

/-- String-level escaping, as applied to the Python `text_search` string. -/
def escapeStr (s : String) : String := String.mk (escapeTextSearch s.data)

/-- String-level pattern `f"%{safe}%"` embedded into each `ilike` clause. -/
def textSearchPatternStr (s : String) : String := "%" ++ escapeStr s ++ "%"

/-! ## Predicates built by the query functions in `src/utils/queries.py` -/

/-- One predicate accumulated on a PostgREST query builder; one constructor
per builder method used by `fetch_quotes` / `search_calls` / `count_calls`. -/
inductive Pred where
  | gteInt (col : String) (v : Int)
  | lteInt (col : String) (v : Int)
  | gteStr (col : String) (v : String)
  | lteStr (col : String) (v : String)
  | inList (col : String) (vs : List String)
  | eqBool (col : String) (v : Bool)
  | neqStr (col : String) (v : String)
  | notNull (col : String)
  | orIlike (alts : List (String × String))
  deriving Repr, DecidableEq

/-- Python truthiness of an optional string (`if text_search:` — `None` and
`""` are both falsy). -/
def truthyStr (o : Option String) : Bool :=
  match o with
  | some s => !s.isEmpty
  | none => false

/-- Python truthiness of an optional list (`if case_types:` — `None` and
`[]` are both falsy). -/
def truthyList (o : Option (List String)) : Bool :=
  match o with
  | some l => !l.isEmpty
  | none => false

/-- The `if xs: q = q.in_(col, xs)` pattern shared by the query functions. -/
def inFilter (col : String) (o : Option (List String)) : List Pred :=
  match o with
  | some l => if l.isEmpty then [] else [Pred.inList col l]
  | none => []

/-- The `if start_date: q = q.gte(col, start_date)` pattern. -/
def dateGte (col : String) (o : Option String) : List Pred :=
  match o with
  | some s => if s.isEmpty then [] else [Pred.gteStr col s]
  | none => []

/-- The `if end_date: q = q.lte(col, end_date)` pattern. -/
def dateLte (col : String) (o : Option String) : List Pred :=
  match o with
  | some s => if s.isEmpty then [] else [Pred.lteStr col s]
  | none => []

/-- The `if text_search:` block of `search_calls` and `count_calls`: escape
the user text and `or_` together `ilike` clauses on summary, key_quote and
primary_topic.  The block is textually identical in both source functions. -/
def textFilter (o : Option String) : List Pred :=
  match o with
  | some s =>
    if s.isEmpty then []
    else
      [Pred.orIlike [("summary", textSearchPatternStr s),
                     ("key_quote", textSearchPatternStr s),
                     ("primary_topic", textSearchPatternStr s)]]
  | none => []

/-- Predicate chain of `fetch_quotes` (`src/utils/queries.py` lines 55-95),
in source order.  `order`, `limit` and `range` are row-set-preserving and
carry no predicate. -/
def fetch_quotes_preds (min_quality max_quality : Int)
    (case_types tones languages : Option (List String))
    (testimonial_only : Bool) (start_date end_date : Option String) :
    List Pred :=
  [Pred.notNull "key_quote", Pred.neqStr "key_quote" "",
   Pred.gteInt "quality_score" min_quality,
   Pred.lteInt "quality_score" max_quality]
  ++ inFilter "case_type" case_types
  ++ inFilter "emotional_tone" tones
  ++ inFilter "original_language" languages
  ++ (if testimonial_only then [Pred.eqBool "testimonial_candidate" true] else [])
  ++ dateGte "analyzed_at" start_date
  ++ dateLte "analyzed_at" end_date

/-- Predicate chain of `search_calls` (`src/utils/queries.py` lines 131-181),
in source order. -/
def search_calls_preds (text_search : Option String)
    (case_types : Option (List String)) (min_quality max_quality : Int)
    (start_date end_date : Option String)
    (languages tones : Option (List String))
    (has_quote content_worthy : Bool) : List Pred :=
  [Pred.gteInt "quality_score" min_quality,
   Pred.lteInt "quality_score" max_quality]
  ++ textFilter text_search
  ++ inFilter "case_type" case_types
  ++ inFilter "emotional_tone" tones
  ++ inFilter "original_language" languages
  ++ dateGte "analyzed_at" start_date
  ++ dateLte "analyzed_at" end_date
  ++ (if has_quote then [Pred.notNull "key_quote", Pred.neqStr "key_quote" ""] else [])
  ++ (if content_worthy then [Pred.eqBool "content_generation_flag" true] else [])

/-- Predicate chain of `count_calls` (`src/utils/queries.py` lines 570-613),
in source order.  The source body duplicates the filter chain of
`search_calls` verbatim (only the select/count head differs, which carries
no predicate). -/
def count_calls_preds (text_search : Option String)
    (case_types : Option (List String)) (min_quality max_quality : Int)
    (start_date end_date : Option String)
    (languages tones : Option (List String))
    (has_quote content_worthy : Bool) : List Pred :=
  [Pred.gteInt "quality_score" min_quality,
   Pred.lteInt "quality_score" max_quality]
  ++ textFilter text_search
  ++ inFilter "case_type" case_types
  ++ inFilter "emotional_tone" tones
  ++ inFilter "original_language" languages
  ++ dateGte "analyzed_at" start_date
  ++ dateLte "analyzed_at" end_date
  ++ (if has_quote then [Pred.notNull "key_quote", Pred.neqStr "key_quote" ""] else [])
  ++ (if content_worthy then [Pred.eqBool "content_generation_flag" true] else [])

/-! ## Row semantics -/

/-- A cell of an `analysis_results` row: SQL NULL, text, integer or boolean. -/
inductive Value where
  | null
  | s (v : String)
  | i (v : Int)
  | b (v : Bool)
  deriving Repr, DecidableEq

/-- A database row, as a column-name-indexed family of cells. -/
def DBRow : Type := String → Value

/-- SQL evaluation of one predicate against a row.  Comparisons against
NULL are SQL-unknown and exclude the row (evaluate to `false`). -/
def evalPred (r : DBRow) : Pred → Bool
  | .gteInt col v =>
    match r col with
    | .i x => v ≤ x
    | _ => false
  | .lteInt col v =>
    match r col with
    | .i x => x ≤ v
    | _ => false
  | .gteStr col v =>
    match r col with
    | .s x => v ≤ x
    | _ => false
  | .lteStr col v =>
    match r col with
    | .s x => x ≤ v
    | _ => false
  | .inList col vs =>
    match r col with
    | .s x => vs.contains x
    | _ => false
  | .eqBool col v =>
    match r col with
    | .b x => x = v
    | _ => false
  | .neqStr col v =>
    match r col with
    | .s x => x ≠ v
    | _ => false
  | .notNull col =>
    match r col with
    | .null => false
    | _ => true
  | .orIlike alts =>
    alts.any fun a =>
      match r a.1 with
      | .s x => ilikeMatch a.2.data x.data
      | _ => false

/-- A row satisfies a compiled query iff it satisfies every predicate. -/
def rowMatches (r : DBRow) (preds : List Pred) : Bool :=
  preds.all (evalPred r)

/-- Executing a compiled query against a table returns the matching rows.
The function is total: every predicate list executes successfully. -/
def run_query (preds : List Pred) (table : List DBRow) : List DBRow :=
  table.filter fun r => rowMatches r preds

/-- Errors of the FilterCompiler required by the spec (§4.3 / §7); this taxonomy appears
nowhere in the source. -/
inductive FilterError where
  | OutOfRange
  | EmptyMembership
  deriving Repr, DecidableEq

/-- Modelled from the spec, for comparison with the source (refinement):
spec §4.3 requires a Range filter with `low > high` to be rejected with
`FilterError(OutOfRange)`.  No such check exists in `src`; this definition
is the behavior the spec requires, not what the source does. -/
def range_filter_checked_spec (col : String) (low high : Int) :
    Except FilterError (List Pred) :=
  if high < low then Except.error FilterError.OutOfRange
  else Except.ok [Pred.gteInt col low, Pred.lteInt col high]

/-- A concrete `analysis_results` row used in concrete evaluations: it has
a non-empty quote, quality 72, case type "Auto Accident". -/
def quoteRow : DBRow := fun col =>
  if col = "key_quote" then Value.s "They took my case the same day"
  else if col = "quality_score" then Value.i 72
  else if col = "case_type" then Value.s "Auto Accident"
  else if col = "emotional_tone" then Value.s "hopeful"
  else if col = "testimonial_candidate" then Value.b false
  else Value.null

/-! ## `query_table` (`src/utils/database.py` lines 17-78)

`query_table` is decorated `@st.cache_data(ttl=300)` and receives its
filters as a Python dict `{column: value}` or `{column: (operator, value)}`.
A Python dict iterates in insertion order, so the filters argument is
embedded as an association list in insertion order. -/

/-- A filter value in the `filters` dict of `query_table`. -/
inductive FilterVal where
  | str (v : String)
  | int (v : Int)
  | list (vs : List String)
  deriving Repr, DecidableEq

/-- One entry value of the `filters` dict: either a bare value (compiled to
`.eq`) or an `(operator, value)` tuple. -/
inductive QFilter where
  | plain (v : FilterVal)
  | tup (op : String) (v : FilterVal)
  deriving Repr, DecidableEq

/-- A predicate produced by the `query_table` operator dispatch. -/
inductive TPred where
  | gteV (col : String) (v : FilterVal)
  | lteV (col : String) (v : FilterVal)
  | gtV (col : String) (v : FilterVal)
  | ltV (col : String) (v : FilterVal)
  | neqV (col : String) (v : FilterVal)
  | likeV (col : String) (v : FilterVal)
  | ilikeV (col : String) (v : FilterVal)
  | inV (col : String) (v : FilterVal)
  | notIsV (col : String) (v : FilterVal)
  | isV (col : String) (v : FilterVal)
  | eqV (col : String) (v : FilterVal)
  deriving Repr, DecidableEq

/-- The operator dispatch of `query_table` (lines 40-65): an `elif` chain
over the operator name, with no `else` — an unrecognized operator drops the
filter silently; a bare value compiles to `.eq`. -/
def applyQueryFilter (col : String) : QFilter → List TPred
  | .plain v => [TPred.eqV col v]
  | .tup op v =>
    if op = "gte" then [TPred.gteV col v]
    else if op = "lte" then [TPred.lteV col v]
    else if op = "gt" then [TPred.gtV col v]
    else if op = "lt" then [TPred.ltV col v]
    else if op = "neq" then [TPred.neqV col v]
    else if op = "like" then [TPred.likeV col v]
    else if op = "ilike" then [TPred.ilikeV col v]
    else if op = "in" then [TPred.inV col v]
    else if op = "not.is" then [TPred.notIsV col v]
    else if op = "is" then [TPred.isV col v]
    else []

/-- The full predicate list `query_table` accumulates from its filters
dict, in dict insertion order. -/
def query_table_filters (filters : List (String × QFilter)) : List TPred :=
  filters.flatMap fun f => applyQueryFilter f.1 f.2

/-- Case-sensitive `LIKE` (same pattern syntax as `ilikeMatch`, but
characters compare exactly). -/
def likeMatchCS : List Char → List Char → Bool
  | [], t => t.isEmpty
  | '%' :: p, t => t.tails.any fun t' => likeMatchCS p t'
  | '_' :: _, [] => false
  | '_' :: p, _ :: t' => likeMatchCS p t'
  | '\\' :: _ :: _, [] => false
  | '\\' :: d :: p', x :: t' => (x = d) && likeMatchCS p' t'
  | ['\\'], _ => false
  | _ :: _, [] => false
  | c :: p, x :: t' => (x = c) && likeMatchCS p t'

/-- SQL evaluation of one `query_table` predicate against a row. -/
def evalTPred (r : DBRow) : TPred → Bool
  | .gteV col v =>
    match v, r col with
    | .int n, .i x => n ≤ x
    | .str s, .s x => s ≤ x
    | _, _ => false
  | .lteV col v =>
    match v, r col with
    | .int n, .i x => x ≤ n
    | .str s, .s x => x ≤ s
    | _, _ => false
  | .gtV col v =>
    match v, r col with
    | .int n, .i x => n < x
    | .str s, .s x => s < x
    | _, _ => false
  | .ltV col v =>
    match v, r col with
    | .int n, .i x => x < n
    | .str s, .s x => x < s
    | _, _ => false
  | .neqV col v =>
    match v, r col with
    | .int n, .i x => x ≠ n
    | .str s, .s x => x ≠ s
    | _, _ => false
  | .likeV col v =>
    match v, r col with
    | .str pat, .s x => likeMatchCS pat.data x.data
    | _, _ => false
  | .ilikeV col v =>
    match v, r col with
    | .str pat, .s x => ilikeMatch pat.data x.data
    | _, _ => false
  | .inV col v =>
    match v, r col with
    | .list vs, .s x => vs.contains x
    | _, _ => false
  | .notIsV col v =>
    match v, r col with
    | .str "null", cell => !(cell = Value.null)
    | _, _ => false
  | .isV col v =>
    match v, r col with
    | .str "null", cell => cell = Value.null
    | _, _ => false
  | .eqV col v =>
    match v, r col with
    | .int n, .i x => x = n
    | .str s, .s x => x = s
    | _, _ => false

/-- A row satisfies the compiled `query_table` filters iff it satisfies
every produced predicate. -/
def rowMatchesT (r : DBRow) (preds : List TPred) : Bool :=
  preds.all (evalTPred r)

/-! ## The memoization key of `st.cache_data`

Modelled from the spec: the `st.cache_data` decorator implementation is
not part of this repository.  Per the CacheEntry/QueryKey model of the
spec (§3), a cached call is keyed on the argument structure of the query;
the decorator hashes the arguments of the decorated function as given, the filters
dict in its insertion order.  Nothing in `src` sorts or canonicalizes the
filters before they reach the decorator. -/

/-- The cache key of one `query_table` call: the literal argument tuple. -/
structure QueryKey where
  table : String
  select : String
  filters : List (String × QFilter)
  order : Option String
  limit : Option Int
  offset : Option Int
  deriving Repr, DecidableEq

/-- Key under which `st.cache_data` memoizes a `query_table` call. -/
def query_table_cache_key (table select : String)
    (filters : List (String × QFilter)) (order : Option String)
    (limit offset : Option Int) : QueryKey :=
  ⟨table, select, filters, order, limit, offset⟩

/-- Two set-equal filter dicts built in opposite insertion orders (the
same two predicates, added in different widget interaction order). -/
def exF1 : List (String × QFilter) :=
  [("date", QFilter.tup "gte" (FilterVal.str "2025-01-01")),
   ("quality_score", QFilter.tup "lte" (FilterVal.int 80))]

/-- The same filter set as `exF1`, inserted in the opposite order. -/
def exF2 : List (String × QFilter) :=
  [("quality_score", QFilter.tup "lte" (FilterVal.int 80)),
   ("date", QFilter.tup "gte" (FilterVal.str "2025-01-01"))]

/-! ## TTL cache model

Modelled from the spec: `st.cache_data` itself is library code outside
this repository.  Spec §3 (CacheEntry): created on first miss; read on
hit while `age < ttl`; refreshed lazily on a lookup past the ttl.  The
`ttl=` arguments below are the constants from `src`. -/

/-- TTL of `@st.cache_data(ttl=3600)` on `get_case_types`
(`src/utils/queries.py` line 15). -/
def get_case_types_ttl : Nat := 3600

/-- TTL of `@st.cache_data(ttl=3600)` on `get_emotional_tones`
(`src/utils/queries.py` line 20). -/
def get_emotional_tones_ttl : Nat := 3600

/-- TTL of `@st.cache_data(ttl=3600)` on `get_outcomes`
(`src/utils/queries.py` line 25). -/
def get_outcomes_ttl : Nat := 3600

/-- TTL of `@st.cache_data(ttl=3600)` on `get_languages`
(`src/utils/queries.py` line 30). -/
def get_languages_ttl : Nat := 3600

/-- TTL of `@st.cache_data(ttl=3600)` on `get_distinct_values`
(`src/utils/database.py` line 120), the backend of the dictionary
lookups. -/
def get_distinct_values_ttl : Nat := 3600

/-- TTL of `@st.cache_data(ttl=300)` on `query_table`
(`src/utils/database.py` line 17), the paginated row/table query path. -/
def query_table_ttl : Nat := 300

/-- TTL of `@st.cache_data(ttl=600)` on `get_pipeline_stats`
(`src/utils/queries.py` line 498), the aggregate statistics query. -/
def get_pipeline_stats_ttl : Nat := 600

/-- A TTL cache: entries are (key, value, inserted_at). -/
structure CacheState (κ α : Type) where
  entries : List (κ × α × Nat)
  deriving Repr, DecidableEq

/-- One memoized call: on a hit younger than `ttl`, return the cached
value without calling the backend; otherwise call the backend, store the
result with `inserted_at = now`, and return it.  The third component
counts the backend calls this invocation makes (0 or 1). -/
def cachedCall {κ α : Type} [DecidableEq κ] (ttl : Nat) (backend : κ → α)
    (now : Nat) (c : CacheState κ α) (k : κ) : α × CacheState κ α × Nat :=
  match c.entries.find? fun e => decide (e.1 = k) with
  | some e =>
    if now - e.2.2 < ttl then (e.2.1, c, 0)
    else
      let v := backend k
      (v, ⟨(k, v, now) :: c.entries.filter fun e' => decide (e'.1 ≠ k)⟩, 1)
  | none =>
    let v := backend k
    (v, ⟨(k, v, now) :: c.entries⟩, 1)

/-! ## Authentication (`src/utils/auth.py`, `src/utils/db.py`)

`src/utils/db.py` wraps four stored procedures (`wb_authenticate_user`,
`wb_create_session`, `wb_validate_session`, `wb_delete_session`), and
`src/utils/auth.py` imports a fifth helper `register_user` from
`utils.db` which is absent from `src`.  The DB-side behavior of these
five operations is modelled from the spec (§4.1, §4.2); the sign-in and
create-account flows around them are embedded from `check_password` in
`src/utils/auth.py`. -/

/-- Python `str.strip()` (no arguments): remove leading and trailing
whitespace.  (Embedded via character lists; `String.trim` is not used
because it does not reduce in the kernel.) -/
def pyStrip (s : String) : String :=
  ⟨((s.data.dropWhile Char.isWhitespace).reverse.dropWhile
      Char.isWhitespace).reverse⟩

/-- Python `str.endswith(suffix)`. -/
def strEndsWith (s suffix : String) : Bool :=
  suffix.data.isSuffixOf s.data

/-- A row of the portal user table, as returned by the auth RPCs.  The
credential is stored hashed on the DB side; the hash comparison performed
by `wb_authenticate_user` is modelled as comparison of the credential
itself. -/
structure AuthUser where
  user_id : Nat
  user_email : String
  user_password : String
  user_display_name : String
  user_is_admin : Bool
  deriving Repr, DecidableEq

/-- A DB-backed session row (spec §3: token, owning user, display-name
snapshot, created_at, expires_at = created_at + 7 days). -/
structure Session where
  token : String
  user_id : Nat
  user_name : String
  created_at : Nat
  expires_at : Nat
  deriving Repr, DecidableEq

/-- The relational store state the auth RPCs operate on. -/
structure AuthDB where
  users : List AuthUser
  sessions : List Session
  deriving Repr, DecidableEq

/-- Modelled from the spec: the stored procedure `wb_authenticate_user`
called by `authenticate_user` in `src/utils/db.py` is not in `src`.  It
returns the user row on an email+credential match and no row otherwise —
the same empty result for an unknown email as for a wrong password. -/
def authenticate_user (db : AuthDB) (email password : String) :
    Option AuthUser :=
  db.users.find? fun u =>
    decide (u.user_email = email) && decide (u.user_password = password)

/-- Registration errors surfaced by the missing `register_user` helper
(spec §4.1 / §7 taxonomy). -/
inductive RegError where
  | DomainRestricted
  | DuplicateAccount
  deriving Repr, DecidableEq

/-- Modelled from the spec: `register_user` is imported from `utils.db` by
`src/utils/auth.py` but absent from `src`.  Spec §4.1: the email domain
allow-list is enforced before the uniqueness check; on success the new
user row is created and returned; registration itself issues no session. -/
def register_user (db : AuthDB) (email password displayName : String) :
    Except RegError (AuthUser × AuthDB) :=
  if ¬ strEndsWith email "@walkeradvertising.com" then
    Except.error RegError.DomainRestricted
  else if db.users.any fun u => decide (u.user_email = email) then
    Except.error RegError.DuplicateAccount
  else
    let u : AuthUser := ⟨db.users.length + 1, email, password, displayName, false⟩
    Except.ok (u, ⟨db.users ++ [u], db.sessions⟩)

/-- Session TTL: 7 days, in seconds (spec §3). -/
def sessionTTL : Nat := 7 * 24 * 60 * 60

/-- Modelled from the spec: the stored procedure `wb_create_session`
called by `create_session` in `src/utils/db.py` is not in `src`.  It
inserts a session row with a fresh opaque token and 7-day expiry and
returns the token; the token draw from the CSPRNG is modelled as a
deterministic fresh name. -/
def create_session (db : AuthDB) (userId : Nat) (userName : String)
    (now : Nat) : String × AuthDB :=
  let tok := "wbtok" ++ toString db.sessions.length
  (tok, ⟨db.users, db.sessions ++ [⟨tok, userId, userName, now, now + sessionTTL⟩]⟩)

/-- The user view `wb_validate_session` returns: email, display-name
snapshot, admin flag. -/
structure SessionView where
  user_email : String
  user_display_name : String
  user_is_admin : Bool
  deriving Repr, DecidableEq

/-- Modelled from the spec: the stored procedure `wb_validate_session`
called by `validate_session` in `src/utils/db.py` is not in `src`.  An
unexpired session row resolves to the view of its user; an expired or unknown
token yields no row. -/
def validate_session (db : AuthDB) (token : String) (now : Nat) :
    Option SessionView :=
  match db.sessions.find? fun s =>
      decide (s.token = token) && decide (now < s.expires_at) with
  | some s =>
    match db.users.find? fun u => decide (u.user_id = s.user_id) with
    | some u => some ⟨u.user_email, s.user_name, u.user_is_admin⟩
    | none => none
  | none => none

/-- Streamlit session state relevant to authentication, as written by
`check_password` in `src/utils/auth.py`. -/
structure UIState where
  authenticated : Bool
  user_email : Option String
  user_display_name : Option String
  user_is_admin : Bool
  session_token : Option String
  deriving Repr, DecidableEq

/-- What one submit handler surfaces to the browser. -/
inductive UIMessage where
  | errorMsg (m : String)
  | successMsg (m : String)
  | rerunPage
  deriving Repr, DecidableEq

/-- Session state before any authentication. -/
def emptyUI : UIState := ⟨false, none, none, false, none⟩

/-- The Sign-in submit handler of `check_password`
(`src/utils/auth.py` lines 67-83):

    if not email or not password: st.error("Enter both email and password.")
    else:
        user = authenticate_user(email.strip(), password)
        if user: ...create session, set session state, st.rerun()...
        else: st.error("Invalid email or password.")                    -/
def sign_in_submit (st : UIState) (db : AuthDB) (now : Nat)
    (email password : String) : UIState × AuthDB × UIMessage :=
  if email.isEmpty || password.isEmpty then
    (st, db, UIMessage.errorMsg "Enter both email and password.")
  else
    match authenticate_user db (pyStrip email) password with
    | some user =>
      let display :=
        if user.user_display_name.isEmpty then user.user_email
        else user.user_display_name
      let r := create_session db user.user_id display now
      (⟨true, some user.user_email, some display, user.user_is_admin,
        some r.1⟩, r.2, UIMessage.rerunPage)
    | none => (st, db, UIMessage.errorMsg "Invalid email or password.")

/-- The Create-account submit handler of `check_password`
(`src/utils/auth.py` lines 106-138): field checks, password confirmation,
`register_user`, then — on success — a separate `authenticate_user` call
("Auto-login after registration") and only on its success a session; if
that authenticate returns no user, only a success message is shown.  The
Python code maps registration exceptions to messages by substring; the
embedding maps the two `RegError` cases to the corresponding messages. -/
def create_account_submit (st : UIState) (db : AuthDB) (now : Nat)
    (reg_email reg_name reg_password reg_confirm : String) :
    UIState × AuthDB × UIMessage :=
  if reg_email.isEmpty || reg_name.isEmpty || reg_password.isEmpty
      || reg_confirm.isEmpty then
    (st, db, UIMessage.errorMsg "All fields are required.")
  else if reg_password ≠ reg_confirm then
    (st, db, UIMessage.errorMsg "Passwords do not match.")
  else
    match register_user db (pyStrip reg_email) reg_password (pyStrip reg_name) with
    | Except.error RegError.DuplicateAccount =>
      (st, db, UIMessage.errorMsg "Account already exists. Sign in instead.")
    | Except.error RegError.DomainRestricted =>
      (st, db,
       UIMessage.errorMsg "Registration restricted to @walkeradvertising.com emails.")
    | Except.ok (_, db1) =>
      match authenticate_user db1 (pyStrip reg_email) reg_password with
      | some user =>
        let display :=
          if user.user_display_name.isEmpty then user.user_email
          else user.user_display_name
        let r := create_session db1 user.user_id display now
        (⟨true, some user.user_email, some display, user.user_is_admin,
          some r.1⟩, r.2, UIMessage.rerunPage)
      | none => (st, db1, UIMessage.successMsg "Account created! Please sign in.")

/-- A concrete store with one registered user, for concrete auth runs. -/
def authDB1 : AuthDB :=
  ⟨[⟨1, "a@walkeradvertising.com", "pw1234", "Alice", false⟩], []⟩

/-! ## Helper lemmas: unfolding the ILIKE matcher -/

theorem ilikeMatch_percent (p t : List Char) :
    ilikeMatch ('%' :: p) t = t.tails.any fun t' => ilikeMatch p t' := by
  simp only [ilikeMatch]

theorem ilikeMatch_esc_nil (d : Char) (p' : List Char) :
    ilikeMatch ('\\' :: d :: p') [] = false := by
  simp only [ilikeMatch]

theorem ilikeMatch_esc_cons (d : Char) (p' : List Char) (x : Char)
    (t' : List Char) :
    ilikeMatch ('\\' :: d :: p') (x :: t') =
      ((lowerChar x = lowerChar d) && ilikeMatch p' t') := by
  simp only [ilikeMatch]

theorem ilikeMatch_char_nil (c : Char) (p : List Char) (h1 : c ≠ '%')
    (h3 : c ≠ '\\') :
    ilikeMatch (c :: p) [] = false := by
  rcases p with _ | ⟨d, p'⟩
  · by_cases h2 : c = '_'
    · subst h2; simp [ilikeMatch]
    · simp [ilikeMatch, h1, h2, h3]
  · by_cases h2 : c = '_'
    · subst h2; simp [ilikeMatch]
    · simp [ilikeMatch, h1, h2, h3]

theorem ilikeMatch_char_cons (c : Char) (p : List Char) (h1 : c ≠ '%')
    (h2 : c ≠ '_') (h3 : c ≠ '\\') (x : Char) (t' : List Char) :
    ilikeMatch (c :: p) (x :: t') =
      ((lowerChar x = lowerChar c) && ilikeMatch p t') := by
  simp [ilikeMatch, h1, h2, h3]

/-! ## Helper lemmas: the escaping chain is the character-wise escape -/

theorem pyReplace_append (n : Char) (r a b : List Char) :
    pyReplace n r (a ++ b) = pyReplace n r a ++ pyReplace n r b := by
  induction a with
  | nil => rfl
  | cons c cs ih => simp [pyReplace, ih]

theorem escape_append (a b : List Char) :
    escapeTextSearch (a ++ b) = escapeTextSearch a ++ escapeTextSearch b := by
  simp [escapeTextSearch, pyReplace_append]

theorem escape_single (c : Char) : escapeTextSearch [c] = escChar c := by
  by_cases h1 : c = '\\'
  · subst h1; rfl
  by_cases h2 : c = '%'
  · subst h2; rfl
  by_cases h3 : c = '_'
  · subst h3; rfl
  by_cases h4 : c = '('
  · subst h4; rfl
  by_cases h5 : c = ')'
  · subst h5; rfl
  by_cases h6 : c = '.'
  · subst h6; rfl
  by_cases h7 : c = ','
  · subst h7; rfl
  have hmem : c ∉ specialChars := by
    simp [specialChars, h1, h2, h3, h4, h5, h6, h7]
  simp [escapeTextSearch, pyReplace, escChar, h1, h2, h3, h4, h5, h6, h7, hmem]

theorem escape_eq_flatMap (s : List Char) :
    escapeTextSearch s = s.flatMap escChar := by
  induction s with
  | nil => rfl
  | cons c cs ih =>
    have h : escapeTextSearch (c :: cs) = escapeTextSearch ([c] ++ cs) := rfl
    rw [h, escape_append, escape_single, ih, List.flatMap_cons]

/-! ## Helper lemmas: matching an escaped pattern is literal matching -/

theorem ilike_percent_cons (p t : List Char) :
    ilikeMatch ('%' :: p) t = true ↔
      ∃ t1 t2, t = t1 ++ t2 ∧ ilikeMatch p t2 = true := by
  rw [ilikeMatch_percent, List.any_eq_true]
  constructor
  · rintro ⟨t2, hmem, hm⟩
    obtain ⟨t1, rfl⟩ := (List.mem_tails t2 t).1 hmem
    exact ⟨t1, t2, rfl, hm⟩
  · rintro ⟨t1, t2, rfl, hm⟩
    exact ⟨t2, (List.mem_tails t2 (t1 ++ t2)).2 ⟨t1, rfl⟩, hm⟩

theorem ilike_percent_all (t : List Char) : ilikeMatch ['%'] t = true := by
  rw [ilikeMatch_percent, List.any_eq_true]
  exact ⟨[], (List.mem_tails [] t).2 List.nil_suffix, rfl⟩

theorem ilike_escChar_cons (c : Char) (rest t : List Char) :
    ilikeMatch (escChar c ++ rest) t = true ↔
      ∃ x t', t = x :: t' ∧ lowerChar x = lowerChar c ∧
        ilikeMatch rest t' = true := by
  by_cases hc : c ∈ specialChars
  · rw [escChar, if_pos hc]
    cases t with
    | nil => simp [List.cons_append, List.nil_append, ilikeMatch_esc_nil]
    | cons x t' =>
      simp only [List.cons_append, List.nil_append, ilikeMatch_esc_cons,
        Bool.and_eq_true, decide_eq_true_eq]
      constructor
      · intro h
        exact ⟨x, t', rfl, h.1, h.2⟩
      · rintro ⟨x1, t1, he, h⟩
        cases he
        exact ⟨h.1, h.2⟩
  · have h1 : c ≠ '%' := fun h => hc (by rw [h]; decide)
    have h2 : c ≠ '_' := fun h => hc (by rw [h]; decide)
    have h3 : c ≠ '\\' := fun h => hc (by rw [h]; decide)
    rw [escChar, if_neg hc, List.singleton_append]
    cases t with
    | nil => simp [ilikeMatch_char_nil c rest h1 h3]
    | cons x t' =>
      simp only [ilikeMatch_char_cons c rest h1 h2 h3, Bool.and_eq_true,
        decide_eq_true_eq]
      constructor
      · intro h
        exact ⟨x, t', rfl, h.1, h.2⟩
      · rintro ⟨x1, t1, he, h⟩
        cases he
        exact ⟨h.1, h.2⟩

theorem ilike_flatMap_append (s : List Char) (p : List Char) (t : List Char) :
    ilikeMatch (s.flatMap escChar ++ p) t = true ↔
      ∃ t1 t2, t = t1 ++ t2 ∧ t1.map lowerChar = s.map lowerChar ∧
        ilikeMatch p t2 = true := by
  induction s generalizing t with
  | nil =>
    constructor
    · intro h
      exact ⟨[], t, rfl, rfl, h⟩
    · rintro ⟨t1, t2, rfl, hmap, h⟩
      have ht1 : t1 = [] := by simpa using hmap
      subst ht1
      exact h
  | cons c s' ih =>
    rw [List.flatMap_cons, List.append_assoc, ilike_escChar_cons]
    constructor
    · rintro ⟨x, t', rfl, hx, hm⟩
      rcases (ih t').1 hm with ⟨t1, t2, rfl, hmap, hp⟩
      exact ⟨x :: t1, t2, rfl, by simp [hx, hmap], hp⟩
    · rintro ⟨t1, t2, rfl, hmap, hp⟩
      cases t1 with
      | nil => simp at hmap
      | cons x t1' =>
        simp only [List.map_cons, List.cons.injEq] at hmap
        exact ⟨x, t1' ++ t2, by simp, hmap.1,
          (ih (t1' ++ t2)).2 ⟨t1', t2, rfl, hmap.2, hp⟩⟩

theorem textSearch_matches_iff (s t : List Char) :
    ilikeMatch (textSearchPattern s) t = true ↔
      ∃ t0 t1 t2, t = t0 ++ t1 ++ t2 ∧ t1.map lowerChar = s.map lowerChar := by
  rw [textSearchPattern, ilike_percent_cons]
  constructor
  · rintro ⟨t0, trest, rfl, hm⟩
    rw [escape_eq_flatMap] at hm
    rcases (ilike_flatMap_append s ['%'] trest).1 hm with ⟨t1, t2, rfl, hmap, _⟩
    exact ⟨t0, t1, t2, by simp [List.append_assoc], hmap⟩
  · rintro ⟨t0, t1, t2, rfl, hmap⟩
    refine ⟨t0, t1 ++ t2, by simp [List.append_assoc], ?_⟩
    rw [escape_eq_flatMap]
    exact (ilike_flatMap_append s ['%'] (t1 ++ t2)).2
      ⟨t1, t2, rfl, hmap, ilike_percent_all t2⟩

/-- The string-level pattern has exactly the character-list form the
matcher lemmas speak about. -/
theorem textSearchPatternStr_data (s : String) :
    (textSearchPatternStr s).data = textSearchPattern s.data := by
  simp [textSearchPatternStr, textSearchPattern, escapeStr, String.data_append]

/-! ## Claim theorems -/

/-- C1: for every user-supplied text-search string, the compiled pattern
escapes every occurrence of the characters `\ % _ ( ) . ,` (backslash
first, so nothing is double-escaped), and the resulting `ilike` predicate
matches a text exactly when the search string occurs in it as one literal
contiguous (case-folded) substring — no wildcard expansion of `%` or `_`.
In particular the escaped pattern compiled by `search_calls`/`count_calls`
for `"100% (approved)"` matches a text containing that exact substring and
does not match `"1000xapproved"`. -/
theorem C1_text_search_escaping :
    (∀ s : List Char, escapeTextSearch s = s.flatMap escChar) ∧
    (∀ s t : String,
      ilikeMatch (textSearchPatternStr s).data t.data = true ↔
        ∃ t0 t1 t2 : List Char, t.data = t0 ++ t1 ++ t2 ∧
          t1.map lowerChar = s.data.map lowerChar) ∧
    textFilter (some "100% (approved)") =
      [Pred.orIlike [("summary", "%100\\% \\(approved\\)%"),
                     ("key_quote", "%100\\% \\(approved\\)%"),
                     ("primary_topic", "%100\\% \\(approved\\)%")]] ∧
    ilikeMatch (textSearchPatternStr "100% (approved)").data
      "Caller said: 100% (approved) today".data = true ∧
    ilikeMatch (textSearchPatternStr "100% (approved)").data
      "1000xapproved".data = false := by
  refine ⟨escape_eq_flatMap, ?_, ?_, ?_, ?_⟩
  · intro s t
    rw [textSearchPatternStr_data]
    exact textSearch_matches_iff s.data t.data
  · decide
  · decide
  · decide

/-- C10: for every identical assignment of the shared filter arguments,
`count_calls` builds exactly the same predicate list — including the
identical text-search escaping — as `search_calls`, so on every row the
two compiled queries agree. -/
theorem C10_count_matches_search :
    ∀ (text_search : Option String) (case_types : Option (List String))
      (min_quality max_quality : Int) (start_date end_date : Option String)
      (languages tones : Option (List String)) (has_quote content_worthy : Bool),
      count_calls_preds text_search case_types min_quality max_quality
          start_date end_date languages tones has_quote content_worthy =
        search_calls_preds text_search case_types min_quality max_quality
          start_date end_date languages tones has_quote content_worthy ∧
      ∀ r : DBRow,
        rowMatches r (count_calls_preds text_search case_types min_quality
          max_quality start_date end_date languages tones has_quote
          content_worthy) =
        rowMatches r (search_calls_preds text_search case_types min_quality
          max_quality start_date end_date languages tones has_quote
          content_worthy) := by
  intro ts ct minq maxq sd ed lg tn hq cw
  exact ⟨rfl, fun r => rfl⟩

/-- C2, counterexample: the claim says a query built from a Membership
filter with an empty value set matches no rows.  In the source,
`if case_types:` treats an empty list like `None`, so the membership
predicate is dropped; the row `quoteRow` (case type "Auto Accident")
matches the `fetch_quotes` query compiled with `case_types = []`, and the
query returns it. -/
theorem C2_counterexample :
    rowMatches quoteRow
      (fetch_quotes_preds 0 100 (some []) none none false none none) = true ∧
    run_query (fetch_quotes_preds 0 100 (some []) none none false none none)
      [quoteRow] = [quoteRow] := by
  exact ⟨rfl, rfl⟩

/-- C2, amended: a Membership filter with an empty value set is dropped
from the compiled query (Python truthiness makes `[]` behave like `None`),
so the query matches exactly what it would match with no membership filter
at all — everything the remaining filters allow, not nothing.  This holds
for all three membership filters of both `fetch_quotes` and
`search_calls`. -/
theorem C2_empty_membership_dropped :
    ∀ (min_quality max_quality : Int) (ct tn lg : Option (List String))
      (testimonial_only : Bool) (sd ed : Option String)
      (ts : Option String) (hq cw : Bool),
      fetch_quotes_preds min_quality max_quality (some []) tn lg
          testimonial_only sd ed =
        fetch_quotes_preds min_quality max_quality none tn lg
          testimonial_only sd ed ∧
      fetch_quotes_preds min_quality max_quality ct (some []) lg
          testimonial_only sd ed =
        fetch_quotes_preds min_quality max_quality ct none lg
          testimonial_only sd ed ∧
      fetch_quotes_preds min_quality max_quality ct tn (some [])
          testimonial_only sd ed =
        fetch_quotes_preds min_quality max_quality ct tn none
          testimonial_only sd ed ∧
      search_calls_preds ts (some []) min_quality max_quality sd ed lg tn
          hq cw =
        search_calls_preds ts none min_quality max_quality sd ed lg tn
          hq cw ∧
      search_calls_preds ts ct min_quality max_quality sd ed lg (some [])
          hq cw =
        search_calls_preds ts ct min_quality max_quality sd ed lg none
          hq cw ∧
      search_calls_preds ts ct min_quality max_quality sd ed (some []) tn
          hq cw =
        search_calls_preds ts ct min_quality max_quality sd ed none tn
          hq cw := by
  intro minq maxq ct tn lg tst sd ed ts hq cw
  exact ⟨rfl, rfl, rfl, rfl, rfl, rfl⟩

/-- C3, counterexample: the claim says a Range filter with low > high
fails with `FilterError(OutOfRange)`.  The spec-modelled checked compiler
indeed rejects `(50, 10)`; but the source `fetch_quotes` has no such
check: it compiles the contradictory pair `gte 50, lte 10` and executes
successfully, returning the empty row set rather than an error. -/
theorem C3_counterexample :
    range_filter_checked_spec "quality_score" 50 10 =
      Except.error FilterError.OutOfRange ∧
    fetch_quotes_preds 50 10 none none none false none none =
      [Pred.notNull "key_quote", Pred.neqStr "key_quote" "",
       Pred.gteInt "quality_score" 50, Pred.lteInt "quality_score" 10] ∧
    run_query (fetch_quotes_preds 50 10 none none none false none none)
      [quoteRow] = [] := by
  exact ⟨rfl, rfl, rfl⟩

/-- C3, amended: a Range filter with low > high is accepted without any
error: the query compiles to the contradictory predicate pair
`gte(low), lte(high)` and executes successfully, matching no rows on any
table. -/
theorem C3_inverted_range_matches_nothing :
    ∀ (min_quality max_quality : Int) (ct tn lg : Option (List String))
      (testimonial_only : Bool) (sd ed : Option String) (table : List DBRow),
      max_quality < min_quality →
      run_query (fetch_quotes_preds min_quality max_quality ct tn lg
        testimonial_only sd ed) table = [] := by
  intro minq maxq ct tn lg tst sd ed table h
  rw [run_query, List.filter_eq_nil_iff]
  intro r hr hm
  rw [rowMatches, List.all_eq_true] at hm
  have h3 := hm (Pred.gteInt "quality_score" minq) (by simp [fetch_quotes_preds])
  have h4 := hm (Pred.lteInt "quality_score" maxq) (by simp [fetch_quotes_preds])
  cases hq : r "quality_score" with
  | i x =>
    simp only [evalPred, hq, decide_eq_true_eq] at h3 h4
    omega
  | null => simp only [evalPred, hq, Bool.false_eq_true] at h3
  | s v => simp only [evalPred, hq, Bool.false_eq_true] at h3
  | b v => simp only [evalPred, hq, Bool.false_eq_true] at h3

/-- C3, witness: the amended theorem applied at `min=50 > max=10` on the
one-row table `[quoteRow]`. -/
theorem C3_witness :
    (10 : Int) < 50 ∧
    run_query (fetch_quotes_preds 50 10 none none none false none none)
      [quoteRow] = [] :=
  ⟨by decide,
   C3_inverted_range_matches_nothing 50 10 none none none false none none
     [quoteRow] (by decide)⟩

/-! ## Pagination lemmas -/

/-- `ceilDiv t ps` is the ceiling of `t / ps`: characterized by the two
bounds; it is at least 1 for a positive count. -/
theorem ceilDiv_bounds (t ps : Int) (hps : 0 < ps) (ht : 0 < t) :
    ps * (ceilDiv t ps - 1) < t ∧ t ≤ ps * ceilDiv t ps ∧ 1 ≤ ceilDiv t ps := by
  unfold ceilDiv
  have h1 := Int.ediv_add_emod (t + ps - 1) ps
  have h2 := Int.emod_nonneg (t + ps - 1) (by omega : ps ≠ 0)
  have h3 := Int.emod_lt_of_pos (t + ps - 1) hps
  have e : ps * ((t + ps - 1) / ps - 1) = ps * ((t + ps - 1) / ps) - ps := by
    ring
  refine ⟨by omega, by omega, ?_⟩
  by_contra hq'
  push_neg at hq'
  nlinarith

/-- Evaluation of `paginated_controls` when the guard on line 19 passes
(`total_count > 0` and `page_size ≠ 0`). -/
theorem paginated_controls_pos (page0 ps t : Int) (hc : t > 0 ∧ ps ≠ 0) :
    paginated_controls page0 ps (some t) =
      { page := min page0 (max 0 (ceilDiv t ps - 1))
        offset := min page0 (max 0 (ceilDiv t ps - 1)) * ps
        prevDisabled := decide (min page0 (max 0 (ceilDiv t ps - 1)) = 0)
        nextDisabled :=
          decide (min page0 (max 0 (ceilDiv t ps - 1)) ≥ ceilDiv t ps - 1)
        totalPages := some (ceilDiv t ps) } := by
  simp only [paginated_controls, if_pos hc]

/-- C4 (the code at the failing input of the claim): when the total count is 0,
the `total_count > 0` guard makes `total_pages = None`, so the stored page
index is not clamped at all: for every prior page index `p0` the component
yields `pageIndex = p0` and `offset = p0 * pageSize`, with the Previous
button enabled whenever `p0 ≠ 0` (and Next always disabled).  At the
failing input — stored page index 3, page size 50, total 0 — it yields
page 3, offset 150 and an enabled Previous button, not the claimed
`pageIndex = 0`, `offset = 0`, `hasPrevious = false`. -/
theorem C4_total_zero_skips_clamp :
    (∀ page0 ps : Int,
      (paginated_controls page0 ps (some 0)).page = page0 ∧
      (paginated_controls page0 ps (some 0)).offset = page0 * ps ∧
      (paginated_controls page0 ps (some 0)).nextDisabled = true ∧
      (paginated_controls page0 ps (some 0)).prevDisabled = decide (page0 = 0)) ∧
    paginated_controls 3 50 (some 0) =
      { page := 3, offset := 150, prevDisabled := false, nextDisabled := true,
        totalPages := none } := by
  constructor
  · intro page0 ps
    exact ⟨rfl, rfl, rfl, rfl⟩
  · decide

/-- C5: for every non-negative stored page index, positive page size and
positive total count, the component computes
`totalPages = ceil(total/pageSize)` (characterized by its two bounds) and
clamps the page index to `max(0, totalPages - 1)` whenever the stored
index reaches `totalPages`; the returned page index and offset are never
negative, and `offset = pageIndex * pageSize`.  In particular a request
with offset 200 and limit 20 (stored page index 10) over total 95 clamps
to page index 4. -/
theorem C5_pagination_clamp :
    (∀ page0 ps t : Int, 0 ≤ page0 → 0 < ps → 0 < t →
      ∃ tp, (paginated_controls page0 ps (some t)).totalPages = some tp ∧
        ps * (tp - 1) < t ∧ t ≤ ps * tp ∧
        (paginated_controls page0 ps (some t)).page = min page0 (tp - 1) ∧
        (tp ≤ page0 →
          (paginated_controls page0 ps (some t)).page = max 0 (tp - 1)) ∧
        0 ≤ (paginated_controls page0 ps (some t)).page ∧
        (paginated_controls page0 ps (some t)).offset =
          (paginated_controls page0 ps (some t)).page * ps ∧
        0 ≤ (paginated_controls page0 ps (some t)).offset) ∧
    (paginated_controls 10 20 (some 95)).page = 4 ∧
    (paginated_controls 10 20 (some 95)).offset = 80 := by
  refine ⟨?_, by decide, by decide⟩
  intro page0 ps t hp0 hps ht
  obtain ⟨hlow, hhigh, hone⟩ := ceilDiv_bounds t ps hps ht
  rw [paginated_controls_pos page0 ps t ⟨ht, by omega⟩]
  dsimp only
  refine ⟨ceilDiv t ps, rfl, hlow, hhigh, by omega, fun hcl => by omega, by omega,
    rfl, ?_⟩
  have hpage : 0 ≤ min page0 (max 0 (ceilDiv t ps - 1)) := by omega
  exact mul_nonneg hpage (le_of_lt hps)

/-- C5, witness: the clamping theorem applied at stored page index 10
(offset 200, limit 20) with total 95. -/
theorem C5_witness :
    (0 : Int) ≤ 10 ∧ (0 : Int) < 20 ∧ (0 : Int) < 95 ∧
    (∃ tp, (paginated_controls 10 20 (some 95)).totalPages = some tp ∧
      20 * (tp - 1) < 95 ∧ 95 ≤ 20 * tp ∧
      (paginated_controls 10 20 (some 95)).page = min 10 (tp - 1) ∧
      (tp ≤ 10 → (paginated_controls 10 20 (some 95)).page = max 0 (tp - 1)) ∧
      0 ≤ (paginated_controls 10 20 (some 95)).page ∧
      (paginated_controls 10 20 (some 95)).offset =
        (paginated_controls 10 20 (some 95)).page * 20 ∧
      0 ≤ (paginated_controls 10 20 (some 95)).offset) :=
  ⟨by decide, by decide, by decide,
   C5_pagination_clamp.1 10 20 95 (by decide) (by decide) (by decide)⟩

/-! ## Cache lemmas -/

/-- C7: the cached queries carry the TTL class of their kind — the
dictionary/lookup queries (distinct case types, tones, outcomes,
languages) 3600 seconds, the paginated row/table query path 300 seconds,
the aggregate statistics query 600 seconds — and for every query key, a
second identical call within the TTL window returns the cached result
with no additional backend call: starting from a cache without the key,
the two calls make exactly one backend round trip between them and both
return the backend value. -/
theorem C7_ttl_classes :
    (get_case_types_ttl = 3600 ∧ get_emotional_tones_ttl = 3600 ∧
     get_outcomes_ttl = 3600 ∧ get_languages_ttl = 3600 ∧
     get_distinct_values_ttl = 3600 ∧ query_table_ttl = 300 ∧
     get_pipeline_stats_ttl = 600) ∧
    (∀ (κ α : Type) (inst : DecidableEq κ) (ttl : Nat) (backend : κ → α)
       (k : κ) (t0 t1 : Nat), t0 ≤ t1 → t1 - t0 < ttl →
       (cachedCall ttl backend t0 ⟨[]⟩ k).2.2 = 1 ∧
       (cachedCall ttl backend t1 (cachedCall ttl backend t0 ⟨[]⟩ k).2.1 k).2.2
         = 0 ∧
       (cachedCall ttl backend t1 (cachedCall ttl backend t0 ⟨[]⟩ k).2.1 k).1
         = backend k ∧
       (cachedCall ttl backend t0 ⟨[]⟩ k).1 = backend k) := by
  refine ⟨⟨rfl, rfl, rfl, rfl, rfl, rfl, rfl⟩, ?_⟩
  intro κ α inst ttl backend k t0 t1 ht hlt
  have hc1 : cachedCall ttl backend t0 ⟨[]⟩ k =
      (backend k, ⟨[(k, backend k, t0)]⟩, 1) := rfl
  have hfind : List.find? (fun e => decide (e.1 = k)) [(k, backend k, t0)] =
      some (k, backend k, t0) := by simp
  have hc2 : cachedCall ttl backend t1 ⟨[(k, backend k, t0)]⟩ k =
      (backend k, ⟨[(k, backend k, t0)]⟩, 0) := by
    simp only [cachedCall, hfind]
    rw [if_pos hlt]
  rw [hc1]
  rw [hc2]
  exact ⟨rfl, rfl, rfl, rfl⟩

/-- C7, witness: two calls under the 300-second TTL class at times 100
and 200 over an empty cache, with a constant backend. -/
theorem C7_witness :
    (100 : Nat) ≤ 200 ∧ 200 - 100 < 300 ∧
    ((cachedCall 300 (fun _ : Nat => (7 : Nat)) 100 ⟨[]⟩ 0).2.2 = 1 ∧
     (cachedCall 300 (fun _ : Nat => (7 : Nat)) 200
        (cachedCall 300 (fun _ : Nat => (7 : Nat)) 100 ⟨[]⟩ 0).2.1 0).2.2 = 0 ∧
     (cachedCall 300 (fun _ : Nat => (7 : Nat)) 200
        (cachedCall 300 (fun _ : Nat => (7 : Nat)) 100 ⟨[]⟩ 0).2.1 0).1 = 7 ∧
     (cachedCall 300 (fun _ : Nat => (7 : Nat)) 100 ⟨[]⟩ 0).1 = 7) :=
  ⟨by decide, by decide,
   C7_ttl_classes.2 Nat Nat instDecidableEqNat 300 (fun _ => 7) 0 100 200
     (by decide) (by decide)⟩

/-- A Boolean `all` is invariant under permutation of the list. -/
theorem all_eq_of_perm {α : Type} (f : α → Bool) {l1 l2 : List α}
    (h : List.Perm l1 l2) : l1.all f = l2.all f := by
  rw [Bool.eq_iff_iff, List.all_eq_true, List.all_eq_true]
  exact ⟨fun H a ha => H a (h.mem_iff.2 ha), fun H a ha => H a (h.mem_iff.1 ha)⟩

/-- `all` over a `flatMap` is the `all` of the inner `all`s. -/
theorem all_flatMap {α β : Type} (g : α → List β) (f : β → Bool)
    (l : List α) : (l.flatMap g).all f = l.all fun x => (g x).all f := by
  induction l with
  | nil => rfl
  | cons x xs ih => simp [List.flatMap_cons, List.all_append, ih]

/-- C8, counterexample: the claim says set-equal filter sets compile to
the same canonical cache key because FilterSpecs are sorted by field name
then operator before hashing.  No such sorting exists in `src`:
`query_table` hands its filters dict to `st.cache_data` as built, so the
set-equal (permuted) filter dicts `exF1` and `exF2` produce two distinct
cache keys. -/
theorem C8_counterexample :
    List.Perm exF1 exF2 ∧
    query_table_cache_key "cost_tracking" "*" exF1 none none none ≠
      query_table_cache_key "cost_tracking" "*" exF2 none none none := by
  constructor
  · exact List.Perm.swap _ _ _
  · decide

/-- C8, amended: the cache key of `query_table` is the literal argument
structure, with the filters in dict insertion order and no
canonicalization: two compilations share a cache key exactly when their
filter lists are equal as ordered lists, so set-equal filter sets built
in different orders occupy distinct cache entries.  The two entries are
nevertheless observationally equal: permuting the filters does not change
which rows match. -/
theorem C8_key_is_literal_argument_structure :
    ∀ (table select : String) (f1 f2 : List (String × QFilter))
      (order : Option String) (limit offset : Option Int),
      (query_table_cache_key table select f1 order limit offset =
         query_table_cache_key table select f2 order limit offset ↔ f1 = f2) ∧
      (List.Perm f1 f2 → ∀ r : DBRow,
        rowMatchesT r (query_table_filters f1) =
          rowMatchesT r (query_table_filters f2)) := by
  intro table select f1 f2 order limit offset
  constructor
  · constructor
    · intro h
      have := congrArg QueryKey.filters h
      simpa [query_table_cache_key] using this
    · intro h
      rw [h]
  · intro hperm r
    rw [rowMatchesT, rowMatchesT, query_table_filters, query_table_filters,
      all_flatMap, all_flatMap]
    exact all_eq_of_perm _ hperm

/-- C8, witness for the amended theorem: applied to the permuted filter
dicts `exF1`, `exF2` and the row `quoteRow`. -/
theorem C8_witness :
    rowMatchesT quoteRow (query_table_filters exF1) =
      rowMatchesT quoteRow (query_table_filters exF2) :=
  (C8_key_is_literal_argument_structure "cost_tracking" "*" exF1 exF2
      none none none).2 (List.Perm.swap _ _ _) quoteRow

/-! ## Authentication theorems -/

/-- C6: registration does not auto-authenticate.  First, the register
operation itself creates no session: a successful `register_user` leaves
the sessions table untouched.  Second, at the caller (the create-account
flow of `check_password`), authenticated state is established only when the
flow separately invokes `authenticate_user` after the successful
registration and that call returns a user. -/
theorem C6_register_does_not_authenticate :
    (∀ (db : AuthDB) (e p n : String) (u : AuthUser) (db' : AuthDB),
      register_user db e p n = Except.ok (u, db') →
      db'.sessions = db.sessions) ∧
    (∀ (st : UIState) (db : AuthDB) (now : Nat) (e n p c : String),
      st.authenticated = false →
      (create_account_submit st db now e n p c).1.authenticated = true →
      ∃ u db1, register_user db (pyStrip e) p (pyStrip n) = Except.ok (u, db1) ∧
        (authenticate_user db1 (pyStrip e) p).isSome = true) := by
  constructor
  · intro db e p n u db' h
    by_cases h1 : ¬ strEndsWith e "@walkeradvertising.com" = true
    · rw [register_user, if_pos h1] at h
      exact absurd h (by simp)
    · rw [register_user, if_neg h1] at h
      by_cases h2 : (db.users.any fun u0 => decide (u0.user_email = e)) = true
      · rw [if_pos h2] at h
        exact absurd h (by simp)
      · rw [if_neg h2] at h
        injection h with h'
        have hdb := congrArg Prod.snd h'
        dsimp only at hdb
        rw [← hdb]
  · intro st db now e n p c hst hauth
    unfold create_account_submit at hauth
    by_cases hf : (e.isEmpty || n.isEmpty || p.isEmpty || c.isEmpty) = true
    · rw [if_pos hf] at hauth
      dsimp only at hauth
      rw [hst] at hauth
      exact absurd hauth (by simp)
    · rw [if_neg hf] at hauth
      by_cases hpc : p ≠ c
      · rw [if_pos hpc] at hauth
        dsimp only at hauth
        rw [hst] at hauth
        exact absurd hauth (by simp)
      · rw [if_neg hpc] at hauth
        cases hreg : register_user db (pyStrip e) p (pyStrip n) with
        | error err =>
          rw [hreg] at hauth
          cases err with
          | DomainRestricted =>
            dsimp only at hauth
            rw [hst] at hauth
            exact absurd hauth (by simp)
          | DuplicateAccount =>
            dsimp only at hauth
            rw [hst] at hauth
            exact absurd hauth (by simp)
        | ok pair =>
          obtain ⟨u1, db1⟩ := pair
          rw [hreg] at hauth
          dsimp only at hauth
          cases hau : authenticate_user db1 (pyStrip e) p with
          | some user =>
            exact ⟨u1, db1, rfl, by simp [hau]⟩
          | none =>
            rw [hau] at hauth
            dsimp only at hauth
            rw [hst] at hauth
            exact absurd hauth (by simp)

/-- C6, witness: a successful registration on an empty store leaves the
sessions table empty, and a full create-account run that ends
authenticated did pass through a successful separate `authenticate_user`
call. -/
theorem C6_witness :
    (register_user ⟨[], []⟩ "a@walkeradvertising.com" "pw1234" "Alice" =
       Except.ok (⟨1, "a@walkeradvertising.com", "pw1234", "Alice", false⟩,
         ⟨[⟨1, "a@walkeradvertising.com", "pw1234", "Alice", false⟩], []⟩) ∧
     AuthDB.sessions
         ⟨[⟨1, "a@walkeradvertising.com", "pw1234", "Alice", false⟩], []⟩ =
       AuthDB.sessions ⟨[], []⟩) ∧
    (emptyUI.authenticated = false ∧
     (create_account_submit emptyUI ⟨[], []⟩ 1000 "b@walkeradvertising.com"
        "Bob" "pw9" "pw9").1.authenticated = true ∧
     ∃ u db1,
       register_user ⟨[], []⟩ (pyStrip "b@walkeradvertising.com") "pw9" (pyStrip "Bob") =
         Except.ok (u, db1) ∧
       (authenticate_user db1 (pyStrip "b@walkeradvertising.com") "pw9").isSome =
         true) :=
  ⟨⟨rfl,
    C6_register_does_not_authenticate.1 ⟨[], []⟩ "a@walkeradvertising.com"
      "pw1234" "Alice"
      ⟨1, "a@walkeradvertising.com", "pw1234", "Alice", false⟩
      ⟨[⟨1, "a@walkeradvertising.com", "pw1234", "Alice", false⟩], []⟩
      rfl⟩,
   rfl, by decide,
   C6_register_does_not_authenticate.2 emptyUI ⟨[], []⟩ 1000
     "b@walkeradvertising.com" "Bob" "pw9" "pw9" rfl (by decide)⟩

/-- C9: for a failed sign-in, the caller sees the identical generic
error whether the email is unknown or the email exists and the password
is wrong: both runs return the unchanged state and the same message
"Invalid email or password.", so the outcome does not reveal which was at
fault. -/
theorem C9_generic_invalid_credentials :
    ∀ (st : UIState) (db : AuthDB) (now : Nat) (e1 p1 e2 p2 : String),
      e1.isEmpty = false → p1.isEmpty = false →
      e2.isEmpty = false → p2.isEmpty = false →
      (∀ u ∈ db.users, u.user_email ≠ pyStrip e1) →
      (∃ u ∈ db.users, u.user_email = pyStrip e2) →
      (∀ u ∈ db.users, ¬(u.user_email = pyStrip e2 ∧ u.user_password = p2)) →
      sign_in_submit st db now e1 p1 =
        (st, db, UIMessage.errorMsg "Invalid email or password.") ∧
      sign_in_submit st db now e2 p2 =
        (st, db, UIMessage.errorMsg "Invalid email or password.") := by
  intro st db now e1 p1 e2 p2 he1 hp1 he2 hp2 hunknown hexists hwrong
  have ha1 : authenticate_user db (pyStrip e1) p1 = none := by
    rw [authenticate_user, List.find?_eq_none]
    intro u hu
    simp only [Bool.and_eq_true, decide_eq_true_eq, not_and]
    intro heq
    exact absurd heq (hunknown u hu)
  have ha2 : authenticate_user db (pyStrip e2) p2 = none := by
    rw [authenticate_user, List.find?_eq_none]
    intro u hu
    simp only [Bool.and_eq_true, decide_eq_true_eq, not_and]
    intro heq hpw
    exact hwrong u hu ⟨heq, hpw⟩
  constructor
  · simp [sign_in_submit, he1, hp1, ha1]
  · simp [sign_in_submit, he2, hp2, ha2]

/-- C9, witness: against a store holding the account of Alice, signing in
with an unknown email and signing in with that email but a wrong password
produce the identical generic error outcome. -/
theorem C9_witness :
    sign_in_submit emptyUI authDB1 5 "b@walkeradvertising.com" "whatever" =
      (emptyUI, authDB1, UIMessage.errorMsg "Invalid email or password.") ∧
    sign_in_submit emptyUI authDB1 5 "a@walkeradvertising.com" "wrong" =
      (emptyUI, authDB1, UIMessage.errorMsg "Invalid email or password.") :=
  C9_generic_invalid_credentials emptyUI authDB1 5 "b@walkeradvertising.com"
    "whatever" "a@walkeradvertising.com" "wrong" (by decide) (by decide)
    (by decide) (by decide) (by decide) (by decide) (by decide)

end WalkerBrain
